import Mathlib

/-!
# Agent Session & Protocol Adapter — verification development

Shallow embedding of the session-lifecycle, update-routing and
session-history-persistence core of the `aitoolsforobsidian` plugin,
together with proofs of the specified behavioural properties.

Conventions of the embedding:
* JavaScript `Date` values are modelled as epoch milliseconds (`Nat`).
* JavaScript `string | null` / optional fields become `Option String`.
* JavaScript truthiness tests on strings (`if (s)`) are modelled
  explicitly: `null`/`undefined` and the empty string are falsy.
* `async` functions that can reject are modelled by passing the outcome
  of the awaited adapter call as an explicit `CallOutcome` argument;
  the function result is the state after the `try`/`catch` completes.
-/

set_option maxRecDepth 4000

namespace AiTools

/-- Truthiness of a JS `string | null | undefined` value: `null`,
`undefined` and the empty string are falsy. -/
def jsTruthy : Option String → Bool
  | none => false
  | some s => s ≠ ""

/-- JS `a || b` on strings: returns `b` when `a` is falsy (empty). -/
def jsOrString (a b : String) : String :=
  if a = "" then b else a

/-- Outcome of an awaited adapter call: the promise either resolves or
rejects (the `catch` branch runs). -/
inductive CallOutcome
  | ok
  | thrown
  deriving DecidableEq, Repr

/-- Session lifecycle states (`SessionState` in
`src/domain/models/chat-session.ts`). -/
inductive SessionState
  | disconnected
  | initializing
  | ready
  | error
  deriving DecidableEq, Repr

/-- Message roles. -/
inductive Role
  | user
  | assistant
  deriving DecidableEq, Repr

/-- Typed content blocks of a chat message (`MessageContent` union,
variants as consumed in `ChatView.tsx` / the markdown exporter). -/
inductive MessageContent
  | text (text : String)
  | textWithContext (text : String) (noteName : Option String)
  | agentThought (text : String)
  | toolCall (toolCallId : String) (title : String) (status : String)
  | terminal (terminalId : String)
  | plan (entries : List String)
  | permissionRequest (requestId : String)
  | image (mimeType : String) (data : String)
  deriving DecidableEq, Repr

/-- In-memory chat message: `{id, role, content[], timestamp: Date}`. -/
structure ChatMessage where
  id : String
  role : Role
  content : List MessageContent
  timestamp : Nat
  deriving DecidableEq, Repr

/-- Serialized message inside a session-history file: the timestamp is a
string (`Date#toISOString`), everything else is spread through
unchanged. -/
structure SerializedChatMessage where
  id : String
  role : Role
  content : List MessageContent
  timestamp : String
  deriving DecidableEq, Repr

/-- `SessionMessagesFile`: serialized format of a per-session message
log (`{version, sessionId, agentId, messages, savedAt}`). -/
structure SessionMessagesFile where
  version : Int
  sessionId : String
  agentId : String
  messages : List SerializedChatMessage
  savedAt : String
  deriving DecidableEq, Repr

/-- Saved-session metadata index entry (`SavedSessionInfo`). -/
structure SavedSessionInfo where
  sessionId : String
  agentId : String
  cwd : String
  title : String
  createdAt : String
  updatedAt : String
  deriving DecidableEq, Repr

/-- `Date#toISOString`, modelled as an injective rendering of the epoch
milliseconds.  The exact ISO-8601 text is irrelevant here: no verified
property inspects the rendered form, and the round-trip property
explicitly excludes timestamp serialization. -/
def dateToIsoString (ms : Nat) : String :=
  toString ms

/-- `new Date(isoString)`, the inverse rendering. -/
def dateOfIsoString (s : String) : Nat :=
  (s.toNat?).getD 0

-- ============================================================
-- SettingsStore — session storage (src/unnamed/part_004)
-- ============================================================

/-- `SettingsStore.MAX_SAVED_SESSIONS`. -/
def MAX_SAVED_SESSIONS : Nat := 50

/-- `SettingsStore.saveSession`: update in place when the sessionId is
already present, otherwise unshift the new entry and pop the last one
when the cap is exceeded. -/
def saveSession (info : SavedSessionInfo) (sessions : List SavedSessionInfo) :
    List SavedSessionInfo :=
  match sessions.findIdx? (fun s => s.sessionId == info.sessionId) with
  | some i => sessions.set i info
  | none =>
      let sessions' := info :: sessions
      if sessions'.length > MAX_SAVED_SESSIONS then sessions'.dropLast
      else sessions'

/-- `SettingsStore.saveSessionMessages`: serialize each message
(`timestamp: Date → string`) and write the versioned file.  The file is
written at the path derived from the (sanitized) sessionId, which is
the same path `loadSessionMessages` reads. -/
def saveSessionMessagesFile (sessionId agentId : String)
    (messages : List ChatMessage) (now : Nat) : SessionMessagesFile :=
  { version := 1
    sessionId := sessionId
    agentId := agentId
    messages := messages.map (fun msg =>
      { id := msg.id
        role := msg.role
        content := msg.content
        timestamp := dateToIsoString msg.timestamp })
    savedAt := dateToIsoString now }

/-- `SettingsStore.loadSessionMessages`, given the parsed file at the
session's path (`none` for a missing or JSON-unparsable file is handled
by the caller and yields `null`).  The structural checks
(`typeof data.version !== "number"`, `!Array.isArray(data.messages)`)
always pass in the typed embedding; the version check rejects any
version other than `1`. -/
def loadSessionMessagesFromFile (data : SessionMessagesFile) :
    Option (List ChatMessage) :=
  if data.version ≠ 1 then
    none
  else
    some (data.messages.map (fun msg =>
      { id := msg.id
        role := msg.role
        content := msg.content
        timestamp := dateOfIsoString msg.timestamp }))

/-- Validity filter of `repairSessionMetadata`'s scan loop: the
version-is-a-number and messages-is-an-array checks always hold in the
typed embedding; `!data.sessionId` rejects the empty string (JS
falsiness).  JSON-unparsable files are skipped by the surrounding
`catch` and are therefore not part of the modelled input list. -/
def repairValid (data : SessionMessagesFile) : Bool :=
  data.sessionId ≠ ""

/-- The text the repair pass derives a title from: the first block of
type `text` in the first message of role `user`, when both exist. -/
def firstUserText (messages : List SerializedChatMessage) : Option String :=
  match messages.find? (fun m => m.role == Role.user) with
  | none => none
  | some firstUserMsg =>
      match firstUserMsg.content.find? (fun c =>
          match c with
          | MessageContent.text _ => true
          | _ => false) with
      | some (MessageContent.text text) => some text
      | _ => none

/-- Title synthesis of `repairSessionMetadata`: the first `text` block
of the first user message, with `substring(0, 50) + "..."` applied when
it is longer than 50 characters; `"Recovered session"` when no such
block exists. -/
def repairTitle (messages : List SerializedChatMessage) : String :=
  match firstUserText messages with
  | some text => if text.length > 50 then text.take 50 ++ "..." else text
  | none => "Recovered session"

/-- The metadata entry synthesized for one orphaned message log. -/
def repairedEntry (defaultCwd : String) (now : Nat)
    (data : SessionMessagesFile) : SavedSessionInfo :=
  { sessionId := data.sessionId
    agentId := jsOrString data.agentId "unknown"
    cwd := defaultCwd
    title := repairTitle data.messages
    createdAt :=
      jsOrString ((data.messages.head?.map (·.timestamp)).getD "")
        data.savedAt
    updatedAt := jsOrString data.savedAt (dateToIsoString now) }

/-- The list of entries synthesized by one `repairSessionMetadata` run:
every parsed log record that passes the validity filter and whose
sessionId has no existing index entry, in scan order.  The existing-id
set is computed once, before the loop. -/
def repairedSessions (defaultCwd : String) (now : Nat)
    (files : List SessionMessagesFile)
    (savedSessions : List SavedSessionInfo) : List SavedSessionInfo :=
  let existingIds := savedSessions.map (·.sessionId)
  (files.filter (fun d =>
      repairValid d && !(existingIds.contains d.sessionId))).map
    (repairedEntry defaultCwd now)

/-- `SettingsStore.repairSessionMetadata`: the metadata index after one
repair run — the synthesized entries are prepended to the existing
index (when none were synthesized the index is left untouched, which
coincides with prepending the empty list). -/
def repairSessionMetadata (defaultCwd : String) (now : Nat)
    (files : List SessionMessagesFile)
    (savedSessions : List SavedSessionInfo) : List SavedSessionInfo :=
  repairedSessions defaultCwd now files savedSessions ++ savedSessions

/-- The count returned by `repairSessionMetadata`. -/
def repairSessionMetadataCount (defaultCwd : String) (now : Nat)
    (files : List SessionMessagesFile)
    (savedSessions : List SavedSessionInfo) : Nat :=
  (repairedSessions defaultCwd now files savedSessions).length

-- ============================================================
-- Session state (src/hooks/useAgentSession.ts)
-- ============================================================

/-- Authentication method descriptor (`{id, name}`). -/
structure AuthMethod where
  id : String
  name : String
  deriving DecidableEq, Repr

/-- Slash-command descriptor announced by the agent. -/
structure SlashCommand where
  name : String
  description : String
  deriving DecidableEq, Repr

/-- One selectable session mode. -/
structure ModeInfo where
  id : String
  name : String
  deriving DecidableEq, Repr

/-- `SessionModeState`: `{availableModes, currentModeId}`. -/
structure SessionModeState where
  availableModes : List ModeInfo
  currentModeId : String
  deriving DecidableEq, Repr

/-- One selectable model. -/
structure ModelInfo where
  id : String
  name : String
  deriving DecidableEq, Repr

/-- `SessionModelState`: `{availableModels, currentModelId}`. -/
structure SessionModelState where
  availableModels : List ModelInfo
  currentModelId : String
  deriving DecidableEq, Repr

/-- Prompt capabilities announced during the handshake. -/
structure PromptCapabilities where
  image : Bool
  audio : Bool
  embeddedContext : Bool
  deriving DecidableEq, Repr

/-- Agent capabilities announced during the handshake. -/
structure AgentCapabilities where
  loadSession : Bool
  deriving DecidableEq, Repr

/-- Agent identity info announced during the handshake. -/
structure AgentInfo where
  name : String
  version : Option String
  deriving DecidableEq, Repr

/-- `ChatSession`: the hook-level session state of `useAgentSession`. -/
structure ChatSession where
  sessionId : Option String
  state : SessionState
  agentId : String
  agentDisplayName : String
  authMethods : List AuthMethod
  availableCommands : Option (List SlashCommand)
  modes : Option SessionModeState
  models : Option SessionModelState
  promptCapabilities : Option PromptCapabilities
  agentCapabilities : Option AgentCapabilities
  agentInfo : Option AgentInfo
  createdAt : Nat
  lastActivityAt : Nat
  workingDirectory : String
  deriving DecidableEq, Repr

/-- `cancelOperation`: early return when `session.sessionId` is falsy;
otherwise `agentClient.cancel` is awaited and the session state is set
to `ready` both on resolution and in the `catch` branch. -/
def cancelOperation (s : ChatSession) (outcome : CallOutcome) : ChatSession :=
  if !(jsTruthy s.sessionId) then
    s
  else
    match outcome with
    | CallOutcome.ok => { s with state := SessionState.ready }
    | CallOutcome.thrown => { s with state := SessionState.ready }

/-- The optimistic update of `setMode`: set `modes.currentModeId`
immediately, leaving the state unchanged when no mode state exists
(`if (!prev.modes) return prev`). -/
def setModeOptimistic (s : ChatSession) (modeId : String) : ChatSession :=
  match s.modes with
  | none => s
  | some m => { s with modes := some { m with currentModeId := modeId } }

/-- `setMode`: early return when `session.sessionId` is falsy; record
`previousModeId`, apply the optimistic update, await
`agentClient.setSessionMode`, and on a thrown error roll back — but
only when `previousModeId` is truthy (`if (previousModeId)`). -/
def setMode (s : ChatSession) (modeId : String) (outcome : CallOutcome) :
    ChatSession :=
  if !(jsTruthy s.sessionId) then
    s
  else
    let previousModeId := s.modes.map (·.currentModeId)
    let s₁ := setModeOptimistic s modeId
    match outcome with
    | CallOutcome.ok => s₁
    | CallOutcome.thrown =>
        if jsTruthy previousModeId then
          match previousModeId, s₁.modes with
          | some p, some m =>
              { s₁ with modes := some { m with currentModeId := p } }
          | _, _ => s₁
        else
          s₁

/-- `updateAvailableCommands` (called on `available_commands_update`):
unconditionally replaces the command list. -/
def updateAvailableCommands (s : ChatSession) (commands : List SlashCommand) :
    ChatSession :=
  { s with availableCommands := some commands }

/-- `updateCurrentMode` (called on `current_mode_update`): updates
`modes.currentModeId`, only when mode state exists. -/
def updateCurrentMode (s : ChatSession) (modeId : String) : ChatSession :=
  match s.modes with
  | none => s
  | some m => { s with modes := some { m with currentModeId := modeId } }

-- ============================================================
-- Protocol adapter state (modelled from the spec, §4.2)
-- ============================================================

/-- Modelled from the spec: the protocol adapter (`AcpAdapter`, not
under `src/`; only its caller `useAgentSession.ts` and its port are)
reports whether it has completed the `initialize` handshake and for
which agent id (`isInitialized()` / `getCurrentAgentId()`). -/
structure AcpAdapterState where
  isInit : Bool
  currentAgentId : Option String
  deriving DecidableEq, Repr

/-- Modelled from the spec: a successful `initialize(profile)` handshake
leaves the adapter initialized for the profile's agent id. -/
def adapterAfterHandshake (agentId : String) : AcpAdapterState :=
  { isInit := true, currentAgentId := some agentId }

/-- Modelled from the spec: `disconnect()` kills the subprocess; the
adapter is no longer initialized afterwards. -/
def adapterDisconnect (_st : AcpAdapterState) : AcpAdapterState :=
  { isInit := false, currentAgentId := none }

/-- The `needsInitialize` test of `createSession`/`loadSession`:
`!agentClient.isInitialized() || agentClient.getCurrentAgentId() !==
activeAgentId`. -/
def needsInit (st : AcpAdapterState) (activeAgentId : String) : Bool :=
  !st.isInit ||
    (match st.currentAgentId with
     | some a => a != activeAgentId
     | none => true)

/-- Result of the `initialize` handshake consumed by `createSession`. -/
structure HandshakeResult where
  authMethods : List AuthMethod
  promptCapabilities : Option PromptCapabilities
  agentCapabilities : Option AgentCapabilities
  agentInfo : Option AgentInfo
  deriving DecidableEq, Repr

/-- Result of `newSession(cwd)`. -/
structure NewSessionResult where
  sessionId : String
  modes : Option SessionModeState
  models : Option SessionModelState
  deriving DecidableEq, Repr

/-- The environment of one `createSession` call: the active agent
resolved from settings and the responses the adapter would return. -/
structure CreateCall where
  activeAgentId : String
  agentDisplayName : String
  handshake : HandshakeResult
  sessionResult : NewSessionResult
  now : Nat
  deriving DecidableEq, Repr

/-- `createSession` (success path, `useAgentSession.ts:521-671`): reset
the session to `initializing` (keeping capabilities/info from the
previous session), run the handshake only when `needsInitialize`
holds, call `newSession`, and set the session `ready`.  The local
`authMethods` variable starts as `[]` and is assigned only inside the
`if (needsInitialize)` branch; the final state always receives it.
Returns the adapter state, the session state, and whether the
handshake (`agentClient.initialize`) was invoked. -/
def createSession (st : AcpAdapterState) (s : ChatSession) (c : CreateCall) :
    AcpAdapterState × ChatSession × Bool :=
  let s₀ : ChatSession :=
    { s with
      sessionId := none
      state := SessionState.initializing
      agentId := c.activeAgentId
      agentDisplayName := c.agentDisplayName
      authMethods := []
      availableCommands := none
      modes := none
      models := none
      createdAt := c.now
      lastActivityAt := c.now }
  let need := needsInit st c.activeAgentId
  let st' := if need then adapterAfterHandshake c.activeAgentId else st
  let authMethods := if need then c.handshake.authMethods else []
  let s' : ChatSession :=
    { s₀ with
      sessionId := some c.sessionResult.sessionId
      state := SessionState.ready
      authMethods := authMethods
      modes := c.sessionResult.modes
      models := c.sessionResult.models
      promptCapabilities :=
        if need then c.handshake.promptCapabilities
        else s₀.promptCapabilities
      agentCapabilities :=
        if need then c.handshake.agentCapabilities
        else s₀.agentCapabilities
      agentInfo := if need then c.handshake.agentInfo else s₀.agentInfo
      lastActivityAt := c.now }
  (st', s', need)

/-- A sequence of `createSession` calls (no intervening `disconnect`),
returning the final adapter/session state and the per-call record of
whether the handshake was invoked. -/
def runCreateSessions (st : AcpAdapterState) (s : ChatSession) :
    List CreateCall → AcpAdapterState × ChatSession × List Bool
  | [] => (st, s, [])
  | c :: cs =>
      let r := createSession st s c
      let rest := runCreateSessions r.1 r.2.1 cs
      (rest.1, rest.2.1, r.2.2 :: rest.2.2)

/-- How many calls of a trace invoked the handshake for a given agent
id. -/
def handshakeCount (calls : List CreateCall) (flags : List Bool)
    (agentId : String) : Nat :=
  ((calls.zip flags).filter
    (fun p => p.1.activeAgentId == agentId && p.2)).length

-- ============================================================
-- Update router (src/components/chat/ChatView.tsx:652-692)
-- ============================================================

/-- Payload of a session-update notification, as discriminated by the
router (`update.type`); message-level updates are routed to the chat
assembler, the two session-level updates also mutate the session. -/
inductive UpdatePayload
  | userMessageChunk (text : String)
  | agentMessageChunk (text : String)
  | agentThoughtChunk (text : String)
  | toolCallUpdate (toolCallId : String)
  | planUpdate (entries : List String)
  | availableCommandsUpdate (commands : List SlashCommand)
  | currentModeUpdate (currentModeId : String)
  deriving DecidableEq, Repr

/-- A session-update notification: every one carries the sessionId it
belongs to. -/
structure SessionUpdateEvent where
  sessionId : String
  payload : UpdatePayload
  deriving DecidableEq, Repr

/-- The state touched by the `onSessionUpdate` effect of `ChatView`:
the chat-assembler state (abstract, folded by the
`chat.handleSessionUpdate` callback), the hook session state, and the
load-suppression flag. -/
structure ChatViewState (α : Type) where
  chat : α
  session : ChatSession
  isLoadingSessionHistory : Bool
  deriving DecidableEq, Repr

/-- The body of the `onSessionUpdate` callback after the session-id
filter: during a history load only the two session-level updates are
applied; otherwise every update is routed to `chat.handleSessionUpdate`
and the session-level updates are additionally applied. -/
def routeSessionUpdate {α : Type}
    (chatHandle : α → SessionUpdateEvent → α)
    (st : ChatViewState α) (update : SessionUpdateEvent) :
    ChatViewState α :=
  if st.isLoadingSessionHistory then
    match update.payload with
    | UpdatePayload.availableCommandsUpdate commands =>
        { st with session := updateAvailableCommands st.session commands }
    | UpdatePayload.currentModeUpdate modeId =>
        { st with session := updateCurrentMode st.session modeId }
    | _ => st
  else
    let st₁ := { st with chat := chatHandle st.chat update }
    match update.payload with
    | UpdatePayload.availableCommandsUpdate commands =>
        { st₁ with session := updateAvailableCommands st₁.session commands }
    | UpdatePayload.currentModeUpdate modeId =>
        { st₁ with session := updateCurrentMode st₁.session modeId }
    | _ => st₁

/-- The `onSessionUpdate` callback registered by `ChatView`: discard
the update when `session.sessionId` is truthy and differs from
`update.sessionId`, otherwise run the routing body. -/
def onSessionUpdate {α : Type}
    (chatHandle : α → SessionUpdateEvent → α)
    (st : ChatViewState α) (update : SessionUpdateEvent) :
    ChatViewState α :=
  if jsTruthy st.session.sessionId &&
      update.sessionId != (st.session.sessionId.getD "") then
    st
  else
    routeSessionUpdate chatHandle st update

-- ============================================================
-- Concrete sample values used by witnesses and counterexamples
-- ============================================================

/-- A concrete ready session with an active session id. -/
def sampleSession : ChatSession :=
  { sessionId := some "sess-1"
    state := SessionState.ready
    agentId := "claude-code-acp"
    agentDisplayName := "Claude Code"
    authMethods := []
    availableCommands := none
    modes := some { availableModes := [], currentModeId := "default" }
    models := none
    promptCapabilities := none
    agentCapabilities := none
    agentInfo := none
    createdAt := 0
    lastActivityAt := 0
    workingDirectory := "/vault" }

/-- The initial disconnected session (`createInitialSession`). -/
def initialSession : ChatSession :=
  { sessionId := none
    state := SessionState.disconnected
    agentId := "claude-code-acp"
    agentDisplayName := "Claude Code"
    authMethods := []
    availableCommands := none
    modes := none
    models := none
    promptCapabilities := none
    agentCapabilities := none
    agentInfo := none
    createdAt := 0
    lastActivityAt := 0
    workingDirectory := "/vault" }

-- ============================================================
-- C1 — cancellation always resolves to `ready`
-- ============================================================

/-- C1: whenever `cancelOperation` reaches the underlying
`agentClient.cancel` call (i.e. the session has an active, truthy
session id), the session state afterwards is `ready` — both when the
call resolves and when it throws. -/
theorem cancelOperation_resolves_ready (s : ChatSession)
    (h : jsTruthy s.sessionId = true) (outcome : CallOutcome) :
    (cancelOperation s outcome).state = SessionState.ready := by
  unfold cancelOperation
  rw [h]
  cases outcome <;> rfl

/-- Witness for C1 at a concrete session, exercising the thrown
branch. -/
theorem cancelOperation_resolves_ready_witness :
    jsTruthy sampleSession.sessionId = true ∧
      (cancelOperation sampleSession CallOutcome.thrown).state =
        SessionState.ready :=
  ⟨by decide,
   cancelOperation_resolves_ready sampleSession (by decide)
     CallOutcome.thrown⟩

-- ============================================================
-- C9 — unknown message-log versions are rejected
-- ============================================================

/-- C9: a message-log file whose numeric `version` differs from 1 is
rejected by `loadSessionMessages` (it returns `null`). -/
theorem loadSessionMessages_rejects_unknown_version
    (data : SessionMessagesFile) (h : data.version ≠ 1) :
    loadSessionMessagesFromFile data = none := by
  simp [loadSessionMessagesFromFile, h]

/-- Witness for C9 at a concrete version-2 file. -/
theorem loadSessionMessages_rejects_unknown_version_witness :
    loadSessionMessagesFromFile
        { version := 2, sessionId := "S1", agentId := "a",
          messages := [], savedAt := "0" } = none :=
  loadSessionMessages_rejects_unknown_version
    { version := 2, sessionId := "S1", agentId := "a",
      messages := [], savedAt := "0" } (by decide)

-- ============================================================
-- C6 — save/load round-trip preserves ids, roles and content
-- ============================================================

/-- C6: saving a message list and reloading the written file yields a
message list with identical ids, roles and ordered content-block
lists (the load succeeds and only the timestamps pass through
serialization). -/
theorem saveLoad_roundtrip_preserves_messages (sessionId agentId : String)
    (messages : List ChatMessage) (now : Nat) :
    (loadSessionMessagesFromFile
        (saveSessionMessagesFile sessionId agentId messages now)).map
        (fun loaded => loaded.map (fun m => (m.id, m.role, m.content))) =
      some (messages.map (fun m => (m.id, m.role, m.content))) := by
  simp [loadSessionMessagesFromFile, saveSessionMessagesFile]

-- ============================================================
-- C10 — no session-id filtering while sessionId is null
-- ============================================================

/-- C10: while the bound session's `sessionId` is `null`, the
`onSessionUpdate` callback applies no session-id filtering: for every
notification, whatever sessionId it carries, the callback behaves
exactly as its routing body (the notification is processed, never
discarded). -/
theorem onSessionUpdate_unfiltered_when_sessionId_null {α : Type}
    (chatHandle : α → SessionUpdateEvent → α) (st : ChatViewState α)
    (update : SessionUpdateEvent) (h : st.session.sessionId = none) :
    onSessionUpdate chatHandle st update =
      routeSessionUpdate chatHandle st update := by
  simp [onSessionUpdate, jsTruthy, h]

/-- Witness for C10: a mode update carrying an arbitrary sessionId is
processed while the bound id is `null` — the routing body runs (and,
here, visibly advances the chat-assembler state). -/
theorem onSessionUpdate_unfiltered_when_sessionId_null_witness :
    (onSessionUpdate (fun n _ => n + 1)
        ⟨0, initialSession, false⟩
        ⟨"any-session", UpdatePayload.currentModeUpdate "plan"⟩ =
      routeSessionUpdate (fun n _ => n + 1)
        ⟨0, initialSession, false⟩
        ⟨"any-session", UpdatePayload.currentModeUpdate "plan"⟩) ∧
      (routeSessionUpdate (fun n _ => n + 1)
        ⟨0, initialSession, false⟩
        ⟨"any-session", UpdatePayload.currentModeUpdate "plan"⟩).chat = 1 :=
  ⟨onSessionUpdate_unfiltered_when_sessionId_null (fun n _ => n + 1) _ _
     rfl, rfl⟩

-- ============================================================
-- C3 — session-id filtering of notifications
-- ============================================================

/-- A bound session whose session id is the empty string: a JS-falsy
but non-null value, reachable because the id is whatever string the
agent's `newSession` response carries. -/
def emptyIdSession : ChatSession :=
  { sampleSession with sessionId := some "" }

/-- Counterexample to C3 as stated: with the bound session id being the
empty string, a notification whose sessionId (`"B"`) differs from the
bound id is *not* discarded — the filter `session.sessionId &&
update.sessionId !== session.sessionId` is skipped for a falsy bound
id, and the notification visibly mutates both the chat state and the
command list. -/
theorem onSessionUpdate_mismatch_not_discarded :
    "B" ≠ emptyIdSession.sessionId.getD "?" ∧
      onSessionUpdate (fun (n : Nat) _ => n + 1)
          ⟨0, emptyIdSession, false⟩
          ⟨"B", UpdatePayload.availableCommandsUpdate []⟩ ≠
        ⟨0, emptyIdSession, false⟩ := by
  constructor
  · decide
  · intro h
    have : (onSessionUpdate (fun (n : Nat) _ => n + 1)
        ⟨0, emptyIdSession, false⟩
        ⟨"B", UpdatePayload.availableCommandsUpdate []⟩).chat = 0 := by
      rw [h]
    simp [onSessionUpdate, routeSessionUpdate, emptyIdSession,
      jsTruthy, sampleSession] at this

/-- C3 (amended): provided the bound session id is a non-empty string,
any notification carrying a different sessionId has zero effect — the
entire `ChatView` state (chat-assembler state, command list, mode
state) is returned unchanged, whatever the chat handler would do. -/
theorem onSessionUpdate_mismatch_zero_effect {α : Type}
    (chatHandle : α → SessionUpdateEvent → α) (st : ChatViewState α)
    (update : SessionUpdateEvent) (sid : String)
    (hbound : st.session.sessionId = some sid) (hne : sid ≠ "")
    (hmismatch : update.sessionId ≠ sid) :
    onSessionUpdate chatHandle st update = st := by
  unfold onSessionUpdate
  rw [hbound]
  simp [jsTruthy, hne, hmismatch]

/-- Witness for C3 (amended) at a concrete mismatched notification. -/
theorem onSessionUpdate_mismatch_zero_effect_witness :
    onSessionUpdate (fun (n : Nat) _ => n + 1)
        ⟨0, sampleSession, false⟩
        ⟨"other-session", UpdatePayload.agentMessageChunk "hi"⟩ =
      ⟨0, sampleSession, false⟩ :=
  onSessionUpdate_mismatch_zero_effect (fun n _ => n + 1)
    ⟨0, sampleSession, false⟩
    ⟨"other-session", UpdatePayload.agentMessageChunk "hi"⟩ "sess-1"
    rfl (by decide) (by decide)

-- ============================================================
-- C8 — optimistic setMode with rollback
-- ============================================================

/-- A session whose current mode id is the empty string — the one
string value that defeats the `if (previousModeId)` rollback guard. -/
def emptyModeSession : ChatSession :=
  { sampleSession with
    modes := some { availableModes := [], currentModeId := "" } }

/-- Counterexample to C8 as stated: on a session with an active session
id whose prior `currentModeId` is the empty string, `setMode "plan"`
followed by a thrown `setSessionMode` does *not* roll back — the
rollback is guarded by JS truthiness of `previousModeId`, so the
optimistic value `"plan"` is kept instead of the prior `""`. -/
theorem setMode_no_rollback_on_empty_prior :
    emptyModeSession.modes.map (·.currentModeId) = some "" ∧
      (setMode emptyModeSession "plan" CallOutcome.thrown).modes.map
          (·.currentModeId) = some "plan" := by
  constructor <;> decide

/-- C8 (amended): on a session with an active (truthy) session id and
existing mode state, `setMode` applies the new mode id optimistically;
on success it is kept; on a thrown error it is rolled back to the
prior mode id provided that prior id is non-empty, and kept when the
prior id is the empty string. -/
theorem setMode_optimistic_with_rollback (s : ChatSession)
    (m : SessionModeState) (modeId : String)
    (hsid : jsTruthy s.sessionId = true) (hmodes : s.modes = some m) :
    (setModeOptimistic s modeId).modes.map (·.currentModeId) =
        some modeId ∧
      (setMode s modeId CallOutcome.ok).modes.map (·.currentModeId) =
        some modeId ∧
      (m.currentModeId ≠ "" →
        (setMode s modeId CallOutcome.thrown).modes.map
            (·.currentModeId) = some m.currentModeId) ∧
      (m.currentModeId = "" →
        (setMode s modeId CallOutcome.thrown).modes.map
            (·.currentModeId) = some modeId) := by
  refine ⟨?_, ?_, ?_, ?_⟩
  · simp [setModeOptimistic, hmodes]
  · simp [setMode, hsid, setModeOptimistic, hmodes]
  · intro hne
    unfold setMode
    rw [hsid]
    simp [setModeOptimistic, hmodes, jsTruthy, hne]
  · intro heq
    unfold setMode
    rw [hsid]
    simp [setModeOptimistic, hmodes, jsTruthy, heq]

/-- Witness for C8 (amended): concrete optimistic update, success keep,
and rollback after a thrown call. -/
theorem setMode_optimistic_with_rollback_witness :
    (setModeOptimistic sampleSession "plan").modes.map
        (·.currentModeId) = some "plan" ∧
      (setMode sampleSession "plan" CallOutcome.ok).modes.map
        (·.currentModeId) = some "plan" ∧
      (setMode sampleSession "plan" CallOutcome.thrown).modes.map
        (·.currentModeId) = some "default" := by
  have h := setMode_optimistic_with_rollback sampleSession
    { availableModes := [], currentModeId := "default" } "plan"
    (by decide) rfl
  exact ⟨h.1, h.2.1, h.2.2.1 (by decide)⟩

-- ============================================================
-- C4 — repair is idempotent on the metadata index
-- ============================================================

/-- The scan-loop predicate of one repair run: valid record whose
sessionId has no entry in the given index. -/
def repairPred (saved : List SavedSessionInfo)
    (d : SessionMessagesFile) : Bool :=
  repairValid d && !((saved.map (·.sessionId)).contains d.sessionId)

theorem repairedSessions_eq_filter_map (cwd : String) (now : Nat)
    (files : List SessionMessagesFile) (saved : List SavedSessionInfo) :
    repairedSessions cwd now files saved =
      (files.filter (repairPred saved)).map (repairedEntry cwd now) := rfl

theorem repairedSessions_map_sid (cwd : String) (now : Nat)
    (files : List SessionMessagesFile) (saved : List SavedSessionInfo) :
    (repairedSessions cwd now files saved).map (·.sessionId) =
      (files.filter (repairPred saved)).map (·.sessionId) := by
  rw [repairedSessions_eq_filter_map, List.map_map]
  rfl

theorem mem_repairedSessions_sid (cwd : String) (now : Nat)
    (files : List SessionMessagesFile) (saved : List SavedSessionInfo)
    (a : String) :
    a ∈ (repairedSessions cwd now files saved).map (·.sessionId) ↔
      ∃ d ∈ files, repairPred saved d = true ∧ d.sessionId = a := by
  rw [repairedSessions_map_sid]
  simp only [List.mem_map, List.mem_filter]
  constructor
  · rintro ⟨d, ⟨hd, hp⟩, rfl⟩
    exact ⟨d, hd, hp, rfl⟩
  · rintro ⟨d, hd, hp, rfl⟩
    exact ⟨d, ⟨hd, hp⟩, rfl⟩

/-- A second repair run over the index produced by a first run
synthesizes nothing: every valid record's sessionId already has an
index entry (either it had one before, or the first run added one). -/
theorem repairedSessions_fixpoint (cwd : String) (now : Nat)
    (files : List SessionMessagesFile) (saved : List SavedSessionInfo) :
    repairedSessions cwd now files
      (repairSessionMetadata cwd now files saved) = [] := by
  rw [repairedSessions_eq_filter_map, List.map_eq_nil_iff]
  rw [List.filter_eq_nil_iff]
  intro d hd
  by_cases hv : repairValid d = true
  · suffices hmem :
        d.sessionId ∈
          (repairSessionMetadata cwd now files saved).map (·.sessionId) by
      have hcon :
          ((repairSessionMetadata cwd now files saved).map
            (·.sessionId)).contains d.sessionId = true :=
        List.elem_iff.mpr hmem
      simp only [repairPred, hcon, Bool.not_true, Bool.and_false]
      simp
    unfold repairSessionMetadata
    rw [List.map_append, List.mem_append]
    by_cases hold : d.sessionId ∈ saved.map (·.sessionId)
    · exact Or.inr hold
    · refine Or.inl ?_
      rw [mem_repairedSessions_sid]
      refine ⟨d, hd, ?_, rfl⟩
      have hcon : (saved.map (·.sessionId)).contains d.sessionId = false := by
        rw [Bool.eq_false_iff]
        intro hcc
        exact hold (List.elem_iff.mp hcc)
      simp only [repairPred, hv, hcon, Bool.not_false, Bool.true_and]
  · rw [Bool.not_eq_true] at hv
    simp only [repairPred, hv, Bool.false_and]
    simp

/-- C4: `repairSessionMetadata` is idempotent with respect to the
metadata index — a second run over the same message-log records is a
no-op, and (for inputs whose log records and index entries carry
pairwise-distinct sessionIds, as produced by `saveSessionMessages` and
`saveSession`) the index after running twice has no two entries with
the same sessionId: every record whose sessionId already has an index
entry is skipped. -/
theorem repairSessionMetadata_idempotent (cwd : String) (now : Nat)
    (files : List SessionMessagesFile) (saved : List SavedSessionInfo)
    (hf : (files.map (·.sessionId)).Nodup)
    (hs : (saved.map (·.sessionId)).Nodup) :
    repairSessionMetadata cwd now files
        (repairSessionMetadata cwd now files saved) =
      repairSessionMetadata cwd now files saved ∧
    ((repairSessionMetadata cwd now files
        (repairSessionMetadata cwd now files saved)).map
        (·.sessionId)).Nodup := by
  have hfix :
      repairSessionMetadata cwd now files
          (repairSessionMetadata cwd now files saved) =
        repairSessionMetadata cwd now files saved := by
    conv_lhs => rw [repairSessionMetadata]
    rw [repairedSessions_fixpoint, List.nil_append]
  refine ⟨hfix, ?_⟩
  rw [hfix]
  unfold repairSessionMetadata
  rw [List.map_append, repairedSessions_map_sid]
  refine List.Nodup.append ?_ hs ?_
  · exact List.Nodup.sublist
      (List.Sublist.map _ (List.filter_sublist files)) hf
  · intro a ha hb
    rw [List.mem_map] at ha
    obtain ⟨d, hd, rfl⟩ := ha
    rw [List.mem_filter] at hd
    have hp := hd.2
    unfold repairPred at hp
    rw [Bool.and_eq_true, Bool.not_eq_true'] at hp
    have hc : (saved.map (·.sessionId)).contains d.sessionId = true :=
      List.elem_iff.mpr hb
    rw [hp.2] at hc
    exact Bool.false_ne_true hc

/-- Witness for C4 at a concrete orphaned log record and empty index. -/
theorem repairSessionMetadata_idempotent_witness :
    repairSessionMetadata "/vault" 0
        [{ version := 1, sessionId := "S1", agentId := "claude",
           messages := [], savedAt := "t0" }]
        (repairSessionMetadata "/vault" 0
          [{ version := 1, sessionId := "S1", agentId := "claude",
             messages := [], savedAt := "t0" }] []) =
      repairSessionMetadata "/vault" 0
        [{ version := 1, sessionId := "S1", agentId := "claude",
           messages := [], savedAt := "t0" }] [] ∧
    ((repairSessionMetadata "/vault" 0
        [{ version := 1, sessionId := "S1", agentId := "claude",
           messages := [], savedAt := "t0" }]
        (repairSessionMetadata "/vault" 0
          [{ version := 1, sessionId := "S1", agentId := "claude",
             messages := [], savedAt := "t0" }] [])).map
        (·.sessionId)).Nodup :=
  repairSessionMetadata_idempotent "/vault" 0
    [{ version := 1, sessionId := "S1", agentId := "claude",
       messages := [], savedAt := "t0" }] [] (by decide) (by decide)

-- ============================================================
-- C5 — orphan repair: entry uniqueness and title derivation
-- ============================================================

/-- Modelled from the claim's words ("a title derived from its first
user message, truncated to 50 characters if longer"): plain truncation
to the first 50 characters, without any suffix.  Used only to compare
the specified title against the one the code produces. -/
def claimTitleOfText (text : String) : String :=
  if text.length > 50 then text.take 50 else text

/-- A 51-character first-user-message text. -/
def c5LongText : String :=
  "aaaaaaaaaaaaaaaaaaaaaaaaaaaaaaaaaaaaaaaaaaaaaaaaaaa"

/-- An orphaned message log for sessionId `"S1"` whose first user
message text is 51 characters long. -/
def c5File : SessionMessagesFile :=
  { version := 1
    sessionId := "S1"
    agentId := "claude-code-acp"
    messages :=
      [{ id := "m1", role := Role.user,
         content := [MessageContent.text c5LongText],
         timestamp := "t1" }]
    savedAt := "t2" }

/-- Counterexample to C5 as stated: repairing the orphaned log yields
exactly one entry for `"S1"`, but its title is the first 50 characters
*plus an appended `"..."`* (53 characters), not the text truncated to
50 characters. -/
theorem repair_orphan_title_not_plain_truncation :
    (repairSessionMetadata "/vault" 0 [c5File] []).map
        (fun e => (e.sessionId, e.title)) =
      [("S1",
        "aaaaaaaaaaaaaaaaaaaaaaaaaaaaaaaaaaaaaaaaaaaaaaaaaa...")] ∧
      "aaaaaaaaaaaaaaaaaaaaaaaaaaaaaaaaaaaaaaaaaaaaaaaaaa..." ≠
        claimTitleOfText c5LongText := by
  constructor
  · decide
  · decide

theorem repairTitle_eq_of_firstUserText
    (messages : List SerializedChatMessage) (t : String)
    (h : firstUserText messages = some t) :
    repairTitle messages =
      if t.length > 50 then t.take 50 ++ "..." else t := by
  unfold repairTitle
  rw [h]

/-- C5 (amended): if a message-log record exists for a sessionId with
no matching metadata entry, then after `repairSessionMetadata` the
index contains exactly one entry for that sessionId, and its title is
the text of the log's first user message — truncated to its first 50
characters with `"..."` appended when longer than 50 characters, kept
whole otherwise. -/
theorem repairSessionMetadata_orphan_repair (cwd : String) (now : Nat)
    (files : List SessionMessagesFile) (saved : List SavedSessionInfo)
    (f : SessionMessagesFile) (t : String)
    (hmem : f ∈ files)
    (hf : (files.map (·.sessionId)).Nodup)
    (hvalid : repairValid f = true)
    (hnew : f.sessionId ∉ saved.map (·.sessionId))
    (htext : firstUserText f.messages = some t) :
    ((repairSessionMetadata cwd now files saved).countP
        (fun e => e.sessionId == f.sessionId)) = 1 ∧
      ∀ e ∈ repairSessionMetadata cwd now files saved,
        e.sessionId = f.sessionId →
          e.title = if t.length > 50 then t.take 50 ++ "..." else t := by
  have hcon : (saved.map (·.sessionId)).contains f.sessionId = false := by
    rw [Bool.eq_false_iff]
    intro hcc
    exact hnew (List.elem_iff.mp hcc)
  have hpredf : repairPred saved f = true := by
    simp only [repairPred, hvalid, hcon, Bool.not_false, Bool.true_and]
  constructor
  · unfold repairSessionMetadata
    rw [List.countP_append]
    have hsaved :
        (saved.countP (fun e => e.sessionId == f.sessionId)) = 0 := by
      rw [List.countP_eq_zero]
      intro e he hbe
      exact hnew (List.mem_map.mpr ⟨e, he, eq_of_beq hbe⟩)
    rw [hsaved, Nat.add_zero]
    rw [repairedSessions_eq_filter_map, List.countP_map]
    show (List.countP (fun d => d.sessionId == f.sessionId)
        (files.filter (repairPred saved))) = 1
    rw [List.countP_filter]
    refine Nat.le_antisymm ?_ ?_
    · calc
        List.countP
            (fun d => d.sessionId == f.sessionId && repairPred saved d)
            files ≤
            List.countP (fun d => d.sessionId == f.sessionId) files :=
          List.countP_mono_left
            (fun d _ hday => (Bool.and_eq_true _ _ ▸ hday).1)
        _ = List.countP ((fun a => a == f.sessionId) ∘ (·.sessionId))
              files := rfl
        _ = List.countP (fun a => a == f.sessionId)
              (files.map (·.sessionId)) := (List.countP_map _ _ _).symm
        _ = (files.map (·.sessionId)).count f.sessionId := rfl
        _ ≤ 1 := List.nodup_iff_count_le_one.mp hf f.sessionId
    · refine Nat.succ_le_of_lt (List.countP_pos_iff.mpr ?_)
      exact ⟨f, hmem, by simp [hpredf]⟩
  · intro e he heq
    unfold repairSessionMetadata at he
    rcases List.mem_append.mp he with hrep | hsav
    · rw [repairedSessions_eq_filter_map, List.mem_map] at hrep
      obtain ⟨d, hd, rfl⟩ := hrep
      rw [List.mem_filter] at hd
      have hdid : d.sessionId = f.sessionId := heq
      have : d = f := List.inj_on_of_nodup_map hf hd.1 hmem hdid
      subst this
      exact repairTitle_eq_of_firstUserText _ _ htext
    · exact absurd (List.mem_map.mpr ⟨e, hsav, heq⟩) hnew

/-- Witness for C5 (amended) at the concrete 51-character orphan log:
the hypotheses are discharged at `c5File` and the resulting count and
title are the concrete ones. -/
theorem repairSessionMetadata_orphan_repair_witness :
    ((repairSessionMetadata "/vault" 0 [c5File] []).countP
        (fun e => e.sessionId == c5File.sessionId)) = 1 ∧
      ∀ e ∈ repairSessionMetadata "/vault" 0 [c5File] [],
        e.sessionId = c5File.sessionId →
          e.title =
            if c5LongText.length > 50 then c5LongText.take 50 ++ "..."
            else c5LongText :=
  repairSessionMetadata_orphan_repair "/vault" 0 [c5File] [] c5File
    c5LongText (by decide) (by decide) (by decide) (by decide)
    (by decide)

-- ============================================================
-- C7 — the 50-entry cap on the metadata index
-- ============================================================

/-- A full metadata index: 50 entries with distinct sessionIds. -/
def c7Saved : List SavedSessionInfo :=
  (List.range MAX_SAVED_SESSIONS).map (fun i =>
    { sessionId := toString i
      agentId := "claude-code-acp"
      cwd := "/vault"
      title := "t"
      createdAt := "0"
      updatedAt := "0" })

/-- An orphaned log whose sessionId is in none of the 50 entries. -/
def c7File : SessionMessagesFile :=
  { version := 1, sessionId := "orphan", agentId := "claude-code-acp",
    messages := [], savedAt := "t0" }

/-- Counterexample to C7 as stated: starting from a full (50-entry)
index, repairing a single orphaned log yields a 51-entry index —
`repairSessionMetadata` prepends the synthesized entries without
enforcing the cap, so the cap is not an invariant of all operations
that modify the index. -/
theorem repairSessionMetadata_exceeds_cap :
    c7Saved.length = MAX_SAVED_SESSIONS ∧
      (repairSessionMetadata "/vault" 0 [c7File] c7Saved).length =
        MAX_SAVED_SESSIONS + 1 := by
  constructor
  · decide
  · decide

/-- C7 (amended): the 50-entry cap is maintained by `saveSession` —
inserting a new entry into a full index evicts the entry in the last
(oldest) position — but `repairSessionMetadata` does not enforce the
cap: it grows the index by exactly the number of synthesized entries,
so the index may exceed the cap after a repair run. -/
theorem saveSession_cap_repair_uncapped :
    (∀ (info : SavedSessionInfo) (sessions : List SavedSessionInfo),
        sessions.length ≤ MAX_SAVED_SESSIONS →
          (saveSession info sessions).length ≤ MAX_SAVED_SESSIONS) ∧
      (∀ (info : SavedSessionInfo) (sessions : List SavedSessionInfo),
        sessions.findIdx? (fun s => s.sessionId == info.sessionId) =
            none →
          sessions.length = MAX_SAVED_SESSIONS →
            saveSession info sessions = (info :: sessions).dropLast) ∧
      (∀ (cwd : String) (now : Nat) (files : List SessionMessagesFile)
          (saved : List SavedSessionInfo),
        (repairSessionMetadata cwd now files saved).length =
          (repairedSessions cwd now files saved).length + saved.length) := by
  refine ⟨?_, ?_, ?_⟩
  · intro info sessions hlen
    unfold saveSession
    cases hidx :
        sessions.findIdx? (fun s => s.sessionId == info.sessionId) with
    | some i =>
        simpa [List.length_set] using hlen
    | none =>
        by_cases hfull :
            (info :: sessions).length > MAX_SAVED_SESSIONS
        · rw [if_pos hfull, List.length_dropLast, List.length_cons,
            Nat.add_sub_cancel]
          exact hlen
        · rw [if_neg hfull]
          exact Nat.le_of_not_lt hfull
  · intro info sessions hidx hlen
    unfold saveSession
    rw [hidx]
    have hfull : (info :: sessions).length > MAX_SAVED_SESSIONS := by
      rw [List.length_cons, hlen]
      exact Nat.lt_succ_self _
    rw [if_pos hfull]
  · intro cwd now files saved
    unfold repairSessionMetadata
    exact List.length_append _ _

/-- Witness for C7 (amended): concrete instances of the cap bound, the
eviction shape at a full index, and the uncapped repair growth. -/
theorem saveSession_cap_repair_uncapped_witness :
    ((saveSession
        { sessionId := "new", agentId := "claude-code-acp",
          cwd := "/vault", title := "t", createdAt := "0",
          updatedAt := "0" } c7Saved).length ≤ MAX_SAVED_SESSIONS) ∧
      saveSession
          { sessionId := "new", agentId := "claude-code-acp",
            cwd := "/vault", title := "t", createdAt := "0",
            updatedAt := "0" } c7Saved =
        ({ sessionId := "new", agentId := "claude-code-acp",
           cwd := "/vault", title := "t", createdAt := "0",
           updatedAt := "0" } :: c7Saved).dropLast :=
  ⟨saveSession_cap_repair_uncapped.1 _ c7Saved (by decide),
   saveSession_cap_repair_uncapped.2.1 _ c7Saved (by decide) (by decide)⟩

-- ============================================================
-- C2 — handshake gating across createSession sequences
-- ============================================================

/-- The adapter before any handshake. -/
def adapter0 : AcpAdapterState := { isInit := false, currentAgentId := none }

/-- A `createSession` call environment for the claude agent whose
handshake announces one auth method. -/
def c2CallA : CreateCall :=
  { activeAgentId := "claude-code-acp"
    agentDisplayName := "Claude Code"
    handshake :=
      { authMethods := [{ id := "oauth", name := "OAuth" }]
        promptCapabilities :=
          some { image := true, audio := false, embeddedContext := true }
        agentCapabilities := some { loadSession := true }
        agentInfo := some { name := "claude", version := none } }
    sessionResult := { sessionId := "sA", modes := none, models := none }
    now := 1 }

/-- A `createSession` call environment for a second agent. -/
def c2CallB : CreateCall :=
  { activeAgentId := "codex-acp"
    agentDisplayName := "Codex"
    handshake :=
      { authMethods := [], promptCapabilities := none,
        agentCapabilities := none, agentInfo := none }
    sessionResult := { sessionId := "sB", modes := none, models := none }
    now := 2 }

/-- Counterexample to C2 as stated, on the trace claude, claude, codex,
claude with no intervening `disconnect`: the handshake runs twice for
the claude agent id (switching away and back re-initializes), and on
the second call — the one that skips initialization — the session's
`authMethods` is reset to `[]` instead of carrying the previously
announced method forward. -/
theorem createSession_handshake_cex :
    handshakeCount [c2CallA, c2CallA, c2CallB, c2CallA]
        (runCreateSessions adapter0 initialSession
          [c2CallA, c2CallA, c2CallB, c2CallA]).2.2
        "claude-code-acp" = 2 ∧
      (runCreateSessions adapter0 initialSession [c2CallA]).2.1.authMethods =
        [{ id := "oauth", name := "OAuth" }] ∧
      (runCreateSessions adapter0 initialSession
          [c2CallA, c2CallA]).2.1.authMethods = [] := by
  refine ⟨by decide, by decide, by decide⟩

theorem createSession_flag_eq_needsInit (st : AcpAdapterState)
    (s : ChatSession) (c : CreateCall) :
    (createSession st s c).2.2 = needsInit st c.activeAgentId := rfl

theorem createSession_adapter_eq (st : AcpAdapterState) (s : ChatSession)
    (c : CreateCall) :
    (createSession st s c).1 =
      if needsInit st c.activeAgentId then
        adapterAfterHandshake c.activeAgentId
      else st := rfl

theorem needsInit_adapterAfterHandshake (a : String) :
    needsInit (adapterAfterHandshake a) a = false := by
  simp [needsInit, adapterAfterHandshake]

theorem runCreateSessions_all_false (a : String)
    (calls : List CreateCall) :
    ∀ (st : AcpAdapterState) (s : ChatSession),
      needsInit st a = false → (∀ c ∈ calls, c.activeAgentId = a) →
        ∀ b ∈ (runCreateSessions st s calls).2.2, b = false := by
  induction calls with
  | nil =>
      intro st s _ _ b hb
      simp [runCreateSessions] at hb
  | cons c cs ih =>
      intro st s hst hall b hb
      have hca : c.activeAgentId = a := hall c (List.mem_cons_self c cs)
      unfold runCreateSessions at hb
      have hflag : (createSession st s c).2.2 = false := by
        rw [createSession_flag_eq_needsInit, hca, hst]
      have hst' : (createSession st s c).1 = st := by
        rw [createSession_adapter_eq, hca, hst]
        rfl
      rcases List.mem_cons.mp hb with hhead | htail
      · rw [hhead, hflag]
      · exact ih (createSession st s c).1 (createSession st s c).2.1
          (by rw [hst']; exact hst)
          (fun d hd => hall d (List.mem_cons_of_mem c hd)) b htail

theorem handshakeCount_eq_zero (calls : List CreateCall)
    (flags : List Bool) (a : String)
    (h : ∀ b ∈ flags, b = false) :
    handshakeCount calls flags a = 0 := by
  unfold handshakeCount
  rw [List.length_eq_zero, List.filter_eq_nil_iff]
  intro p hp
  have hflag : p.2 = false := h p.2 (List.of_mem_zip hp).2
  simp [hflag]

/-- C2 (amended): `createSession` invokes the adapter's `initialize`
exactly when the adapter is not initialized or its current agent id
differs from the active agent id; consequently, across any sequence of
`createSession` calls whose active agent id never changes, the
handshake runs at most once (re-initialization for an agent id recurs
only when the active agent changes in between); after `disconnect()`
the next call always re-initializes; and when initialization is
skipped, the prior capability data (`promptCapabilities`,
`agentCapabilities`, `agentInfo`) is carried forward while
`authMethods` is reset to the empty list. -/
theorem createSession_handshake_gating :
    (∀ (st : AcpAdapterState) (s : ChatSession) (c : CreateCall),
        (createSession st s c).2.2 = true ↔
          ¬(st.isInit = true ∧
            st.currentAgentId = some c.activeAgentId)) ∧
      (∀ (st : AcpAdapterState) (s : ChatSession) (c : CreateCall),
        needsInit st c.activeAgentId = false →
          (createSession st s c).1 = st ∧
            (createSession st s c).2.1.promptCapabilities =
              s.promptCapabilities ∧
            (createSession st s c).2.1.agentCapabilities =
              s.agentCapabilities ∧
            (createSession st s c).2.1.agentInfo = s.agentInfo ∧
            (createSession st s c).2.1.authMethods = []) ∧
      (∀ (st : AcpAdapterState) (s : ChatSession) (a : String)
          (calls : List CreateCall),
        (∀ c ∈ calls, c.activeAgentId = a) →
          handshakeCount calls (runCreateSessions st s calls).2.2 a ≤ 1) ∧
      (∀ (st : AcpAdapterState) (a : String),
        needsInit (adapterDisconnect st) a = true) := by
  refine ⟨?_, ?_, ?_, ?_⟩
  · intro st s c
    rw [createSession_flag_eq_needsInit]
    rcases st with ⟨i, cur⟩
    cases i <;> rcases cur with _ | x <;>
      simp [needsInit, bne_iff_ne]
  · intro st s c h
    refine ⟨by rw [createSession_adapter_eq, h]; rfl, ?_, ?_, ?_, ?_⟩ <;>
      simp [createSession, h]
  · intro st s a calls hall
    cases calls with
    | nil => simp [runCreateSessions, handshakeCount]
    | cons c cs =>
        have hca : c.activeAgentId = a := hall c (List.mem_cons_self c cs)
        have hrest :
            ∀ b ∈ (runCreateSessions (createSession st s c).1
                (createSession st s c).2.1 cs).2.2, b = false := by
          apply runCreateSessions_all_false a cs
          · rw [createSession_adapter_eq, hca]
            by_cases hneed : needsInit st a = true
            · rw [hneed, if_pos rfl]
              exact needsInit_adapterAfterHandshake a
            · rw [Bool.not_eq_true] at hneed
              rw [hneed]
              simpa using hneed
          · exact fun d hd => hall d (List.mem_cons_of_mem c hd)
        show handshakeCount (c :: cs)
            ((createSession st s c).2.2 ::
              (runCreateSessions (createSession st s c).1
                (createSession st s c).2.1 cs).2.2) a ≤ 1
        unfold handshakeCount
        rw [List.zip_cons_cons, List.filter_cons]
        have hz : handshakeCount cs
            (runCreateSessions (createSession st s c).1
              (createSession st s c).2.1 cs).2.2 a = 0 :=
          handshakeCount_eq_zero _ _ _ hrest
        unfold handshakeCount at hz
        split
        · rw [List.length_cons, hz]
        · rw [hz]
          exact Nat.zero_le 1
  · intro st a
    simp [needsInit, adapterDisconnect]

/-- Witness for C2 (amended): the skip-branch carry-forward at an
already-initialized adapter, and the at-most-once handshake count on a
concrete constant-agent trace. -/
theorem createSession_handshake_gating_witness :
    ((createSession (adapterAfterHandshake "claude-code-acp")
        sampleSession c2CallA).1 =
          adapterAfterHandshake "claude-code-acp" ∧
        (createSession (adapterAfterHandshake "claude-code-acp")
          sampleSession c2CallA).2.1.promptCapabilities =
            sampleSession.promptCapabilities ∧
        (createSession (adapterAfterHandshake "claude-code-acp")
          sampleSession c2CallA).2.1.agentCapabilities =
            sampleSession.agentCapabilities ∧
        (createSession (adapterAfterHandshake "claude-code-acp")
          sampleSession c2CallA).2.1.agentInfo =
            sampleSession.agentInfo ∧
        (createSession (adapterAfterHandshake "claude-code-acp")
          sampleSession c2CallA).2.1.authMethods = []) ∧
      handshakeCount [c2CallA, c2CallA]
        (runCreateSessions adapter0 initialSession
          [c2CallA, c2CallA]).2.2 "claude-code-acp" ≤ 1 :=
  ⟨createSession_handshake_gating.2.1
      (adapterAfterHandshake "claude-code-acp") sampleSession c2CallA
      (by decide),
    createSession_handshake_gating.2.2.1 adapter0 initialSession
      "claude-code-acp" [c2CallA, c2CallA]
      (by intro c hc
          rcases List.mem_cons.mp hc with h | h
          · rw [h]; rfl
          · rcases List.mem_cons.mp h with h' | h'
            · rw [h']; rfl
            · simp at h')⟩

end AiTools
